import Mathlib

/-!
Verification of the unified-intelligence thought/session memory subsystem.

This file shallowly embeds the Rust source (src/) in Lean: pure functions
become Lean functions, stateful Redis interactions become explicit state
passing or outcome parameters, machine integers become Int/Nat, and f64
score arithmetic is modelled over ℚ (the scoring logic only adds, multiplies,
divides, compares, caps and floors, so the rational model mirrors the
algorithm). Fallible code returns Except/Option.
-/

namespace UnifiedIntelligence

/-! ## Data model: ThoughtRecord (src/models.rs) -/

/-- Embedding of `models::ThoughtRecord` (`instance` renamed `inst`:
`instance` is a Lean keyword). Integer fields are i32 in the source. -/
structure ThoughtRecord where
  id : String
  inst : String
  thought : String
  content : String
  thought_number : Int
  total_thoughts : Int
  timestamp : String
  chain_id : Option String
  next_thought_needed : Bool
  framework : Option String
  importance : Option Int
  relevance : Option Int
  tags : Option (List String)
  category : Option String
deriving DecidableEq, Repr

/-- ASCII lowercasing, character by character (Rust `to_ascii_lowercase`;
also used to model `to_lowercase` where the compared needles are ASCII,
the only case the embedded code paths exercise). -/
def asciiToLower (s : String) : String := String.mk (s.toList.map Char.toLower)

/-- Containment of `needle` at some position of `hay`. -/
def containsChars (hay needle : List Char) : Bool :=
  match hay with
  | [] => needle.isEmpty
  | _ :: t => needle.isPrefixOf hay || containsChars t needle

/-- Substring containment, Rust `str::contains(needle)`. -/
def containsSub (hay needle : String) : Bool := containsChars hay.toList needle.toList

/-! ## C3: StuckTracker (src/frameworks.rs) -/

/-- Embedding of `frameworks::ThinkingMode`. -/
inductive ThinkingMode where
  | firstPrinciples
  | socratic
  | systems
  | ooda
  | rootCause
  | swot
deriving DecidableEq, Repr

/-- Constant `StuckTracker::CYCLE_ORDER` (SWOT intentionally excluded). -/
def CYCLE_ORDER : List ThinkingMode :=
  [ThinkingMode.firstPrinciples, ThinkingMode.socratic, ThinkingMode.systems,
   ThinkingMode.ooda, ThinkingMode.rootCause]

/-- Embedding of `frameworks::StuckTracker`; the `EnumSet` field `attempted`
is modelled as a duplicate-free list (insert appends iff absent, membership
is list membership). -/
structure StuckTracker where
  chain_id : String
  attempted : List ThinkingMode
  current_cycle : Nat
deriving DecidableEq, Repr

/-- Constructor `StuckTracker::new`: empty attempted set, cycle 0. -/
def StuckTracker.fresh (c : String) : StuckTracker :=
  { chain_id := c, attempted := [], current_cycle := 0 }

/-- Insert into the `attempted` set model (`EnumSet::insert`). -/
def modeInsert (s : List ThinkingMode) (m : ThinkingMode) : List ThinkingMode :=
  if m ∈ s then s else s ++ [m]

/-- Method `StuckTracker::reset_cycle`: bump `current_cycle`, re-seed
`attempted` with only the first mode of the cycle. -/
def StuckTracker.reset_cycle (t : StuckTracker) : StuckTracker :=
  { t with current_cycle := t.current_cycle + 1,
           attempted := [ThinkingMode.firstPrinciples] }

/-- Method `StuckTracker::next_approach`: pick the first mode of
`CYCLE_ORDER` not yet attempted and mark it attempted; if every mode was
attempted, reset the cycle and return the first mode. -/
def StuckTracker.next_approach (t : StuckTracker) : ThinkingMode × StuckTracker :=
  match CYCLE_ORDER.find? (fun m => !(t.attempted.contains m)) with
  | some m => (m, { t with attempted := modeInsert t.attempted m })
  | none => (ThinkingMode.firstPrinciples, t.reset_cycle)

/-- Iterate `next_approach`, collecting the returned modes in order. -/
def runNextApproaches : Nat → StuckTracker → List ThinkingMode × StuckTracker
  | 0, t => ([], t)
  | n + 1, t =>
      let r := t.next_approach
      let rest := runNextApproaches n r.2
      (r.1 :: rest.1, rest.2)

/-! ## C1/C7: atomic thought save (src/repository.rs, src/redis.rs, src/service.rs) -/

/-- Reply of the `store_thought` Lua script as seen by
`RedisManager::store_thought_atomic`: the literal strings OK and DUPLICATE,
or anything else. -/
inductive ScriptResult where
  | ok
  | duplicate
  | other (msg : String)
deriving DecidableEq, Repr

/-- Error variants of `UnifiedIntelligenceError` reached by the modelled
paths. -/
inductive UIError where
  | duplicateThought (inst preview : String)
  | internal (msg : String)
deriving DecidableEq, Repr

/-- Result mapping of `RedisManager::store_thought_atomic`: OK to true,
DUPLICATE to false, anything else to an `Internal` error. -/
def store_thought_atomic (r : ScriptResult) : Except UIError Bool :=
  match r with
  | ScriptResult.ok => Except.ok true
  | ScriptResult.duplicate => Except.ok false
  | ScriptResult.other m =>
      Except.error (UIError.internal ("Unexpected script result: " ++ m))

/-- Preview construction `thought.thought.chars().take(50).collect()`. -/
def contentPreview (s : String) : String := String.mk (s.toList.take 50)

/-- Entries appended to the `{instance}:events` stream by the success branch
of `save_thought`: the full-body `publish_stream_event` and the summary
`log_thought_event`, both with event type `thought_created`. -/
inductive StreamEntry where
  | publishEvent (inst : String) (eventType : String) (body : ThoughtRecord)
  | logEvent (inst : String) (eventType : String) (thoughtId : String)
deriving DecidableEq, Repr

/-- Embedding of `RedisThoughtRepository::save_thought`. The script outcome
and the success of the two best-effort stream appends are inputs; the output
pairs the returned value with the list of stream entries actually appended.
On DUPLICATE the save fails with `DuplicateThought{instance, preview}` and
nothing is appended; on success a failed publish or log is swallowed (logged
at debug) and the call still returns Ok. -/
def save_thought (t : ThoughtRecord) (r : ScriptResult)
    (publishOk logOk : Bool) : Except UIError Unit × List StreamEntry :=
  match store_thought_atomic r with
  | Except.error e => (Except.error e, [])
  | Except.ok false =>
      (Except.error (UIError.duplicateThought t.inst (contentPreview t.thought)), [])
  | Except.ok true =>
      (Except.ok (),
        (if publishOk then [StreamEntry.publishEvent t.inst "thought_created" t] else [])
          ++ (if logOk then [StreamEntry.logEvent t.inst "thought_created" t.id] else []))

/-- Transport error classes used by the tool layer
(`ErrorData::invalid_params` / `ErrorData::internal_error`). -/
inductive ErrClass where
  | invalidParams
  | internalError
deriving DecidableEq, Repr

/-- Error match in `UnifiedIntelligenceService::ui_think`:
`DuplicateThought` maps to `invalid_params`, every other error to
`internal_error`. -/
def ui_think_error_class (e : UIError) : ErrClass :=
  match e with
  | UIError.duplicateThought _ _ => ErrClass.invalidParams
  | _ => ErrClass.internalError

/-! ## C2: ui_start summary chunking (src/service.rs, lines 1053-1095) -/

/-- Embedding of Rust `str::is_char_boundary` over the byte list of a
string: true at index 0; past the data only at the total length; inside the
data exactly at non-continuation bytes. -/
def is_char_boundary (bytes : List Nat) (i : Nat) : Bool :=
  if i = 0 then true
  else
    match bytes.get? i with
    | none => decide (i = bytes.length)
    | some b => decide (b < 128 ∨ 192 ≤ b)

/-- UTF-8 encoding of one scalar value (Rust `char::encode_utf8`). -/
def utf8EncodeChar (c : Char) : List Nat :=
  let n := c.toNat
  if n < 128 then [n]
  else if n < 2048 then [192 + n / 64, 128 + n % 64]
  else if n < 65536 then [224 + n / 4096, 128 + n / 64 % 64, 128 + n % 64]
  else [240 + n / 262144, 128 + n / 4096 % 64, 128 + n / 64 % 64, 128 + n % 64]

/-- Byte sequence of a string (Rust `str::as_bytes`). -/
def utf8Bytes (s : String) : List Nat := (s.toList.map utf8EncodeChar).flatten

/-- Windows `(start, end)` walked by the `ui_start` summary chunk loop:
`end = min (start + chunkSize) len`, then `start = end`, while
`start < len`. Fuel `len + 1` suffices since every step advances `start`. -/
def chunkWindows : Nat → Nat → Nat → Nat → List (Nat × Nat)
  | 0, _, _, _ => []
  | fuel + 1, start, len, chunkSize =>
      if start < len then
        let e := min (start + chunkSize) len
        (start, e) :: chunkWindows fuel e len chunkSize
      else []

/-- Windows used by `ui_start` (`chunk_size = 2000usize`, byte offsets). -/
def ui_start_windows (len : Nat) : List (Nat × Nat) := chunkWindows (len + 1) 0 len 2000

/-- Whether every slice `&summary_text[start..end]` taken by the `ui_start`
chunk loop lies on UTF-8 character boundaries. Rust string range indexing
panics at the first window for which this fails; the loop performs no
boundary adjustment. -/
def ui_start_chunking_safe (s : String) : Bool :=
  let bytes := utf8Bytes s
  (ui_start_windows bytes.length).all
    (fun w => is_char_boundary bytes w.1 && is_char_boundary bytes w.2)

/-- Summary text of 1999 ASCII bytes followed by one two-byte character
(U+00E9): the 2000-byte window boundary falls inside the final code point. -/
def badSummary : String := String.mk (List.replicate 1999 'a' ++ [Char.ofNat 233])

/-! ## C4: retroactive feedback scoring (src/service.rs, compute_feedback_scoring
and the ui_remember query-path hash update) -/

/-- Helper building the phrase "that's not" without an apostrophe literal. -/
def thatsNot : String := String.mk ("that".toList ++ [Char.ofNat 39] ++ "s not".toList)

/-- Correction phrase set of `compute_feedback_scoring`. -/
def correctionPhrases : List String :=
  ["actually", "no,", thatsNot, "incorrect", "correction", "wrong", "not true", "should be"]

/-- Positive-acknowledgement phrase set of `compute_feedback_scoring`. -/
def positiveAckPhrases : List String :=
  ["thanks", "thank you", "got it", "great", "perfect", "that works", "awesome", "nice"]

/-- Embedding of `compute_feedback_scoring` (src/service.rs): retroactive
scoring of the previous assistant thought from the next user message; f64
scores over ℚ. Returns (score, abandoned, continued, corrected). -/
def compute_feedback_scoring (delta_secs : Int) (user_text : String) :
    ℚ × Int × Int × Bool :=
  let lc := asciiToLower user_text
  let corrected := correctionPhrases.any (fun p => containsSub lc p)
  let positive_ack := positiveAckPhrases.any (fun p => containsSub lc p)
  let base : ℚ :=
    if corrected then 3 / 10
    else if delta_secs < 30 then 9 / 10
    else if delta_secs < 120 then 7 / 10
    else 5 / 10
  let s1 : ℚ := if positive_ack then min (base + 1 / 10) 1 else base
  let s2 : ℚ := if corrected then max (s1 - 1 / 10) 0 else s1
  let abandoned : Int := if 600 ≤ delta_secs then 1 else 0
  (s2, abandoned, 1, corrected)

/-- Values written by the HSET pipeline of the `ui_remember` query path. -/
inductive FieldVal where
  | intVal (i : Int)
  | ratVal (q : ℚ)
  | strVal (s : String)
deriving DecidableEq, Repr

/-- Feedback-hash pipeline written by the `ui_remember` query path when a
prior assistant thought exists: the key and the HSET field list, in the
source's order (src/service.rs lines 555-568). -/
def feedback_hash_update (prevAssistantId : String) (delta : Int)
    (userThought : String) : String × List (String × FieldVal) :=
  let r := compute_feedback_scoring delta userThought
  let correctedText := if r.2.2.2 then userThought else ""
  ("voice:feedback:" ++ prevAssistantId,
    [("continued", FieldVal.intVal r.2.2.1),
     ("time_to_next", FieldVal.intVal delta),
     ("corrected", FieldVal.strVal correctedText),
     ("synthesis_quality", FieldVal.ratVal r.1),
     ("feedback_score", FieldVal.ratVal r.1),
     ("abandoned", FieldVal.intVal r.2.1)])

/-- Correction detection on the lowercased user text (named copy of the
`corrected` binding inside `compute_feedback_scoring`). -/
def correctedFlag (text : String) : Bool :=
  correctionPhrases.any (fun p => containsSub (asciiToLower text) p)

/-- Positive-acknowledgement detection on the lowercased user text (named
copy of the `positive_ack` binding inside `compute_feedback_scoring`). -/
def ackFlag (text : String) : Bool :=
  positiveAckPhrases.any (fun p => containsSub (asciiToLower text) p)

/-- Specification predicate for claim C4, following the claim's wording:
closed-form scores for every corrected/ack/threshold case (after applying
the +0.1 cap at 1 and the -0.1 floor at 0), the abandoned iff-600s rule,
continued always 1, and the exact persisted field list. -/
def feedbackScoringSpec (delta : Int) (text : String) : Prop :=
  (correctedFlag text = true → ackFlag text = true →
      (compute_feedback_scoring delta text).1 = 3 / 10)
  ∧ (correctedFlag text = true → ackFlag text = false →
      (compute_feedback_scoring delta text).1 = 1 / 5)
  ∧ (correctedFlag text = false → ackFlag text = true → delta < 30 →
      (compute_feedback_scoring delta text).1 = 1)
  ∧ (correctedFlag text = false → ackFlag text = true → 30 ≤ delta → delta < 120 →
      (compute_feedback_scoring delta text).1 = 4 / 5)
  ∧ (correctedFlag text = false → ackFlag text = true → 120 ≤ delta →
      (compute_feedback_scoring delta text).1 = 3 / 5)
  ∧ (correctedFlag text = false → ackFlag text = false → delta < 30 →
      (compute_feedback_scoring delta text).1 = 9 / 10)
  ∧ (correctedFlag text = false → ackFlag text = false → 30 ≤ delta → delta < 120 →
      (compute_feedback_scoring delta text).1 = 7 / 10)
  ∧ (correctedFlag text = false → ackFlag text = false → 120 ≤ delta →
      (compute_feedback_scoring delta text).1 = 1 / 2)
  ∧ ((compute_feedback_scoring delta text).2.1 = 1 ↔ 600 ≤ delta)
  ∧ (compute_feedback_scoring delta text).2.2.1 = 1
  ∧ (compute_feedback_scoring delta text).2.2.2 = correctedFlag text
  ∧ (∀ pid : String,
      feedback_hash_update pid delta text
        = ("voice:feedback:" ++ pid,
           [("continued", FieldVal.intVal 1),
            ("time_to_next", FieldVal.intVal delta),
            ("corrected", FieldVal.strVal (if correctedFlag text then text else "")),
            ("synthesis_quality", FieldVal.ratVal (compute_feedback_scoring delta text).1),
            ("feedback_score", FieldVal.ratVal (compute_feedback_scoring delta text).1),
            ("abandoned", FieldVal.intVal (compute_feedback_scoring delta text).2.1)]))

/-! ## C5/C10: hybrid candidate scoring and ranking (src/service.rs,
ui_remember retrieval fusion and extract_doc_ids_and_scores) -/

/-- Hybrid weights from `config::HybridWeights` (f64 over ℚ). -/
structure HybridWeights where
  semantic : ℚ
  text : ℚ
  recency : ℚ
deriving DecidableEq, Repr

/-- Weight validation from `Config::validate`: each weight in [0, 1]. -/
def weightsValid (w : HybridWeights) : Bool :=
  decide (0 ≤ w.semantic) && decide (w.semantic ≤ 1)
    && decide (0 ≤ w.text) && decide (w.text ≤ 1)
    && decide (0 ≤ w.recency) && decide (w.recency ≤ 1)

/-- Candidate scoring inputs. The `recency` value is `exp(-age/86400)` in
the source; it enters the fused score only as a computed input, so it is
carried here as that value. -/
structure Cand where
  content : String
  semantic : ℚ
  text : ℚ
  recency : ℚ
deriving DecidableEq, Repr

/-- Semantic similarity from an optional KNN distance:
`score_opt.map(|d| 1.0 / (1.0 + d)).unwrap_or(0.5)`. -/
def semantic_of_score (scoreOpt : Option ℚ) : ℚ :=
  match scoreOpt with
  | some d => 1 / (1 + d)
  | none => 1 / 2

/-- Candidate built from a text-search hit: text 1.0, semantic 0.0. -/
def textCand (content : String) (rec : ℚ) : Cand :=
  { content := content, semantic := 0, text := 1, recency := rec }

/-- Candidate built from a KNN vector hit: text 0.0, semantic from the
optional distance score. -/
def knnCand (content : String) (scoreOpt : Option ℚ) (rec : ℚ) : Cand :=
  { content := content, semantic := semantic_of_score scoreOpt, text := 0, recency := rec }

/-- Fused score `w_sem * semantic + w_text * text + w_rec * recency`. -/
def combinedScore (w : HybridWeights) (c : Cand) : ℚ :=
  w.semantic * c.semantic + w.text * c.text + w.recency * c.recency

/-- Candidate sort: stable, descending by combined score (Rust stable
`sort_by` with comparator `b.combined.partial_cmp(&a.combined)`). -/
def sortCands (w : HybridWeights) (l : List Cand) : List Cand :=
  List.insertionSort (fun a b => combinedScore w b ≤ combinedScore w a) l

/-- Position order: `x` occurs in `l` strictly before `y`. -/
def ranksBefore (l : List Cand) (x y : Cand) : Prop :=
  x ∈ l ∧ y ∈ l ∧ l.indexOf x < l.indexOf y

/-- Model of the RESP values returned by FT.SEARCH; bulk strings are carried
as decoded text (the extraction drops non-UTF-8 bulk ids, a case outside
this model). -/
inductive RValue where
  | intVal (i : Int)
  | bulk (s : String)
  | simple (s : String)
  | arr (items : List RValue)
  | nil

/-- Decimal split helper: leading digits and the rest. -/
def splitDigits (cs : List Char) : List Char × List Char :=
  (cs.takeWhile Char.isDigit, cs.dropWhile Char.isDigit)

/-- Numeric value of a digit run. -/
def digitsVal (ds : List Char) : Nat := ds.foldl (fun a c => a * 10 + (c.toNat - 48)) 0

/-- Parsing of a score field as f64 (`str::parse::<f64>`), modelled for the
finite decimal forms RediSearch emits: optional sign, digits, optional
fractional digits, optional exponent. Returns the exact rational value. -/
def parseDecimal (s : String) : Option ℚ :=
  let cs := s.toList
  let signRest : ℚ × List Char :=
    match cs with
    | '-' :: r => (-1, r)
    | '+' :: r => (1, r)
    | _ => (1, cs)
  let intPart := splitDigits signRest.2
  let fracPart :=
    match intPart.2 with
    | '.' :: r => splitDigits r
    | _ => ([], intPart.2)
  if intPart.1.isEmpty && fracPart.1.isEmpty then none
  else
    let mant : ℚ :=
      (digitsVal intPart.1 : ℚ) + (digitsVal fracPart.1 : ℚ) / ((10 : ℚ) ^ fracPart.1.length)
    match fracPart.2 with
    | [] => some (signRest.1 * mant)
    | e :: r =>
        if e = 'e' ∨ e = 'E' then
          let esignRest : Int × List Char :=
            match r with
            | '-' :: r2 => (-1, r2)
            | '+' :: r2 => (1, r2)
            | _ => (1, r)
          let expPart := splitDigits esignRest.2
          if expPart.1.isEmpty ∨ !expPart.2.isEmpty then none
          else some (signRest.1 * mant * (10 : ℚ) ^ (esignRest.1 * (digitsVal expPart.1 : Int)))
        else none

/-- Test for the field key "score" in `extract_doc_ids_and_scores`. -/
def isScoreKey (v : RValue) : Bool :=
  match v with
  | RValue.bulk s => s = "score"
  | RValue.simple s => s = "score"
  | _ => false

/-- Numeric reading of a score field value: bulk or simple decimal text, or
a RESP integer. -/
def scoreNum (v : RValue) : Option ℚ :=
  match v with
  | RValue.bulk s => parseDecimal s
  | RValue.simple s => parseDecimal s
  | RValue.intVal i => some (i : ℚ)
  | _ => none

/-- Inner field-pair walk of `extract_doc_ids_and_scores`: the first "score"
key whose value parses wins; an unparseable value continues the walk. -/
def findScore : List RValue → Option ℚ
  | k :: v :: rest =>
      if isScoreKey k then
        match scoreNum v with
        | some q => some q
        | none => findScore rest
      else findScore rest
  | _ => none

/-- Document walk of `extract_doc_ids_and_scores`: a string item is a doc
id; when the following item is an array it is that id's field list,
otherwise the hit carries no score. Non-string items are skipped. -/
def extractDocs : List RValue → List (String × Option ℚ)
  | [] => []
  | RValue.bulk s :: RValue.arr fields :: rest => (s, findScore fields) :: extractDocs rest
  | RValue.bulk s :: rest => (s, none) :: extractDocs rest
  | RValue.simple s :: RValue.arr fields :: rest => (s, findScore fields) :: extractDocs rest
  | RValue.simple s :: rest => (s, none) :: extractDocs rest
  | _ :: rest => extractDocs rest

/-- Embedding of `extract_doc_ids_and_scores` (src/service.rs): non-array or
empty replies give no hits; otherwise the leading total count is skipped and
the remaining items are walked. -/
def extract_doc_ids_and_scores (v : RValue) : List (String × Option ℚ) :=
  match v with
  | RValue.arr (_ :: rest) => extractDocs rest
  | _ => []

/-- Weights for the C5 counterexample: semantic weight 0, which
`Config::validate` accepts (each weight only has to lie in [0, 1]). -/
def cexWeights : HybridWeights := { semantic := 0, text := 1 / 2, recency := 1 / 2 }

/-- Lower-similarity candidate (distance 2), pushed first. -/
def cexLow : Cand := knnCand "far hit" (some 2) (1 / 2)

/-- Higher-similarity candidate (distance 0), pushed second. -/
def cexHigh : Cand := knnCand "near hit" (some 0) (1 / 2)

/-! ## C6: ensure_index_hash_hnsw (src/service.rs, lines 1166-1241) -/

/-- Error test of `ensure_index_hash_hnsw`: the lowercased message contains
"index already exists". -/
def isIndexExistsError (msg : String) : Bool :=
  containsSub (asciiToLower msg) "index already exists"

/-- Outcome of the FT.CREATE attempt. -/
inductive CreateOutcome where
  | success
  | failure (msg : String)
deriving DecidableEq, Repr

/-- Embedding of one `ensure_index_hash_hnsw` call: an FT.INFO success
short-circuits with `Ok(false)`; otherwise FT.CREATE runs, an "index already
exists" failure is swallowed as `Ok(false)`, any other failure propagates,
and a success returns `Ok(true)`. -/
def ensure_index_result (infoOk : Bool) (create : CreateOutcome) : Except String Bool :=
  if infoOk then Except.ok false
  else
    match create with
    | CreateOutcome.success => Except.ok true
    | CreateOutcome.failure m =>
        if isIndexExistsError m then Except.ok false else Except.error m

/-- Fixed FT.CREATE argument list (hash prefix, text/tag/numeric schema and
the HNSW vector field) issued when the index is created. -/
def ftCreateArgs (index pfx : String) (dims m efConstruction : Nat) : List String :=
  [index, "ON", "HASH", "PREFIX", "1", pfx, "SCHEMA",
   "content", "TEXT", "tags", "TAG", "SEPARATOR", ",",
   "category", "TEXT", "importance", "TEXT", "chain_id", "TEXT",
   "thought_id", "TEXT", "ts", "NUMERIC", "SORTABLE",
   "vector", "VECTOR", "HNSW", "10", "TYPE", "FLOAT32",
   "DIM", toString dims, "DISTANCE_METRIC", "COSINE",
   "M", toString m, "EF_CONSTRUCTION", toString efConstruction]

/-- Store-level step: with the index-presence flag as store state, the info
probe succeeds iff the index is present and creation succeeds iff it is not
(a lost creation race surfaces as an "Index already exists" failure, which
the call swallows). After the call the index is always present. -/
def ensure_index_step (present : Bool) : Except String Bool × Bool :=
  (ensure_index_result present
      (if present then CreateOutcome.failure "Index already exists" else CreateOutcome.success),
   true)

/-- Run n sequential ensure calls from a store state, collecting results. -/
def runEnsureIndex : Nat → Bool → List (Except String Bool) × Bool
  | 0, st => ([], st)
  | n + 1, st =>
      let r := ensure_index_step st
      let rest := runEnsureIndex n r.2
      (r.1 :: rest.1, rest.2)

/-- Test for a `created = true` return. -/
def isCreated : Except String Bool → Bool
  | Except.ok true => true
  | _ => false

/-- Number of `created = true` returns in a result sequence. -/
def createdCount (rs : List (Except String Bool)) : Nat := (rs.filter isCreated).length

/-! ## C8: ui_remember feedback path (src/service.rs, lines 452-490) -/

/-- Fields of `UiRememberParams` read by the feedback path (i32 as Int). -/
structure UiRememberParams where
  action : Option String
  thought : String
  thought_number : Int
  total_thoughts : Int
  chain_id : Option String
  feedback : Option String
  continue_next : Option Bool
deriving DecidableEq, Repr

/-- Embedding of `parse_action`: a present `feedback` field forces
"feedback"; otherwise normalize (ASCII lowercase, keep alphanumerics) and
compare against the feedback aliases; anything else is "query". -/
def parse_action (action : Option String) (hasFeedback : Bool) : String :=
  if hasFeedback then "feedback"
  else
    let a := asciiToLower (action.getD "query")
    let norm := String.mk (a.toList.filter Char.isAlphanum)
    if norm = "feedback" ∨ norm = "fb" ∨ norm = "critique" ∨ norm = "review" then "feedback"
    else "query"

/-- Fields of the T3 thought stored by the feedback path, as set by the
`ThoughtRecord::new` call at src/service.rs line 473. -/
structure T3Thought where
  thought_number : Int
  total_thoughts : Int
  chain_id : String
  content : String
  next_thought_needed : Bool
  category : Option String
deriving DecidableEq, Repr

/-- Feedback branch of `ui_remember`: requires `chain_id` (invalid_params
otherwise) and stores T3 with number `p.thought_number.max(2) + 1`, total
`p.total_thoughts.max(3)` and category `ui_remember:feedback`. -/
def ui_remember_feedback_t3 (p : UiRememberParams) : Except ErrClass T3Thought :=
  match p.chain_id with
  | none => Except.error ErrClass.invalidParams
  | some c =>
      Except.ok
        { thought_number := max p.thought_number 2 + 1,
          total_thoughts := max p.total_thoughts 3,
          chain_id := c,
          content := p.feedback.getD "",
          next_thought_needed := p.continue_next.getD false,
          category := some "ui_remember:feedback" }

/-- Most recent assistant thought of a chain:
`filter(category == "ui_remember:assistant").max_by_key(timestamp)`
(`max_by_key` keeps the last maximal element on ties). -/
def latestAssistant (chain : List ThoughtRecord) : Option ThoughtRecord :=
  (chain.filter (fun t => t.category == some "ui_remember:assistant")).foldl
    (fun acc t =>
      match acc with
      | none => some t
      | some a => if t.timestamp < a.timestamp then some a else some t)
    none

/-- Chain state for the C8 counterexample: its latest (and only) assistant
thought T2 carries thought_number 4. -/
def c8AssistantT2 : ThoughtRecord :=
  { id := "t2", inst := "CC", thought := "answer", content := "answer",
    thought_number := 4, total_thoughts := 4,
    timestamp := "2025-01-01T00:00:00.000Z", chain_id := some "c",
    next_thought_needed := true, framework := some "ui_remember",
    importance := none, relevance := none, tags := none,
    category := some "ui_remember:assistant" }

/-- Chain containing only T2 for the C8 counterexample. -/
def c8Chain : List ThoughtRecord := [c8AssistantT2]

/-- Feedback-call parameters for the C8 counterexample: provided
thought_number 1 on the chain whose T2 has number 4. -/
def c8Params : UiRememberParams :=
  { action := some "feedback", thought := "", thought_number := 1,
    total_thoughts := 2, chain_id := some "c", feedback := some "good",
    continue_next := some false }

/-! ## C9: RecallHandler::recall (src/handlers/recall.rs) -/

/-- Outcomes of `RecallHandler::recall`. -/
inductive RecallOutcome where
  | thoughtResult (t : ThoughtRecord)
  | chainResult (ts : List ThoughtRecord)
  | invalid (msg : String)
  | internalErr (msg : String)
deriving DecidableEq, Repr

/-- Whether an outcome is an error (either transport error class). -/
def RecallOutcome.isError : RecallOutcome → Bool
  | RecallOutcome.invalid _ => true
  | RecallOutcome.internalErr _ => true
  | _ => false

/-- Embedding of `RecallHandler::recall`, with the repository read outcomes
as inputs: mode "thought" uses `get_thought` (Ok(None) yields the
invalid_params not-found error); mode "chain" uses `get_chain_thoughts` (an
Ok vector, empty or not, is a success); other modes are invalid_params. -/
def recall_handler (mode id : String)
    (getThought : Except String (Option ThoughtRecord))
    (getChain : Except String (List ThoughtRecord)) : RecallOutcome :=
  if mode = "thought" then
    match getThought with
    | Except.ok (some t) => RecallOutcome.thoughtResult t
    | Except.ok none =>
        RecallOutcome.invalid ("Thought with ID " ++ id ++ " not found.")
    | Except.error e => RecallOutcome.internalErr ("Error recalling thought: " ++ e)
  else if mode = "chain" then
    match getChain with
    | Except.ok ts => RecallOutcome.chainResult ts
    | Except.error e => RecallOutcome.internalErr ("Error recalling chain: " ++ e)
  else
    RecallOutcome.invalid ("Invalid recall mode " ++ mode ++ ". Must be thought or chain.")

/-! ## Helper lemmas -/

/-- Once the index is present, every further ensure call returns
`Ok(false)` and the index stays present. -/
theorem runEnsureIndex_true (n : Nat) :
    runEnsureIndex n true = (List.replicate n (Except.ok false), true) := by
  induction n with
  | zero => rfl
  | succ k ih =>
      simp [runEnsureIndex, ensure_index_step, ensure_index_result, ih, List.replicate]

/-- No `created = true` among `Ok(false)` results. -/
theorem createdCount_replicate_okFalse (n : Nat) :
    createdCount (List.replicate n (Except.ok false)) = 0 := by
  induction n with
  | zero => rfl
  | succ k ih => simp [createdCount, List.replicate, isCreated] at ih ⊢

/-- In the stable descending candidate sort, a strictly larger combined
score ranks strictly earlier. -/
theorem ranksBefore_sortCands_of_lt (w : HybridWeights) (l : List Cand) (x y : Cand)
    (hx : x ∈ l) (hy : y ∈ l) (hlt : combinedScore w y < combinedScore w x) :
    ranksBefore (sortCands w l) x y := by
  have hperm : List.Perm (sortCands w l) l := List.perm_insertionSort _ l
  have hxs : x ∈ sortCands w l := hperm.mem_iff.mpr hx
  have hys : y ∈ sortCands w l := hperm.mem_iff.mpr hy
  haveI : IsTotal Cand (fun a b => combinedScore w b ≤ combinedScore w a) :=
    ⟨fun a b => le_total (combinedScore w b) (combinedScore w a)⟩
  haveI : IsTrans Cand (fun a b => combinedScore w b ≤ combinedScore w a) :=
    ⟨fun _ _ _ h1 h2 => le_trans h2 h1⟩
  have hsorted : List.Sorted (fun a b => combinedScore w b ≤ combinedScore w a)
      (sortCands w l) :=
    List.sorted_insertionSort _ l
  refine ⟨hxs, hys, ?_⟩
  by_contra hcon
  push_neg at hcon
  have hxlt : (sortCands w l).indexOf x < (sortCands w l).length :=
    List.indexOf_lt_length.mpr hxs
  have hylt : (sortCands w l).indexOf y < (sortCands w l).length :=
    List.indexOf_lt_length.mpr hys
  rcases lt_or_eq_of_le hcon with hlt2 | heq
  · have hrel := hsorted.rel_get_of_lt
      (a := ⟨(sortCands w l).indexOf y, hylt⟩)
      (b := ⟨(sortCands w l).indexOf x, hxlt⟩) (Fin.mk_lt_mk.mpr hlt2)
    rw [List.indexOf_get hylt, List.indexOf_get hxlt] at hrel
    exact absurd hrel (not_le.mpr hlt)
  · have hxy : x = y := by
      have h1 := List.indexOf_get hxlt
      have h2 := List.indexOf_get hylt
      rw [← h1, ← h2]
      exact congrArg _ (Fin.ext heq.symm)
    rw [hxy] at hlt
    exact lt_irrefl _ hlt

/-- Full evaluation of `compute_feedback_scoring`: closed-form score per
corrected/ack/threshold case, abandoned flag, continued flag and the
corrected indicator. -/
theorem compute_feedback_scoring_eval (delta : Int) (text : String) :
    compute_feedback_scoring delta text =
      ((if correctedFlag text then (if ackFlag text then (3 : ℚ) / 10 else 1 / 5)
        else if delta < 30 then (if ackFlag text then 1 else 9 / 10)
        else if delta < 120 then (if ackFlag text then 4 / 5 else 7 / 10)
        else (if ackFlag text then 3 / 5 else 1 / 2)),
       (if 600 ≤ delta then 1 else 0), 1, correctedFlag text) := by
  simp only [compute_feedback_scoring, correctedFlag, ackFlag]
  split_ifs <;> norm_num [min_def, max_def]

/-- Flattening a replicated singleton. -/
theorem flatten_replicate_singleton (n a : Nat) :
    (List.replicate n [a]).flatten = List.replicate n a := by
  induction n with
  | zero => rfl
  | succ k ih => simp [List.replicate_succ, ih]

/-- Byte layout of the C2 failing summary: 1999 ASCII bytes, then the
two-byte encoding of U+00E9. -/
theorem utf8Bytes_badSummary :
    utf8Bytes badSummary = List.replicate 1999 97 ++ [195, 169] := by
  have h1 : badSummary.toList = List.replicate 1999 'a' ++ [Char.ofNat 233] := rfl
  have h2 : utf8EncodeChar 'a' = [97] := rfl
  have h3 : utf8EncodeChar (Char.ofNat 233) = [195, 169] := rfl
  unfold utf8Bytes
  rw [h1, List.map_append, List.map_replicate, h2, List.map_cons, List.map_nil, h3]
  rw [List.flatten_append, flatten_replicate_singleton]
  rfl

/-- Total byte length of the C2 failing summary. -/
theorem badSummary_length : (utf8Bytes badSummary).length = 2001 := by
  rw [utf8Bytes_badSummary, List.length_append, List.length_replicate]
  rfl

/-- Byte 2000 of the C2 failing summary is the continuation byte 169, so
index 2000 is not a character boundary. -/
theorem badSummary_boundary_2000 :
    is_char_boundary (utf8Bytes badSummary) 2000 = false := by
  have hle : (List.replicate 1999 (97 : Nat)).length ≤ 2000 := by
    rw [List.length_replicate]
    omega
  have hget : (List.replicate 1999 (97 : Nat) ++ [195, 169]).get? 2000 = some 169 := by
    rw [List.get?_append_right hle, List.length_replicate]
    rfl
  simp only [is_char_boundary, utf8Bytes_badSummary, hget]
  rfl

/-! ## Claim theorems -/

/-- C1: when the atomic store script returns DUPLICATE, `save_thought`
fails with `DuplicateThought` carrying the instance and the 50-character
content preview, and `ui_think` classifies that error as `invalid_params`,
never as `internal_error`. -/
theorem C1_duplicate_maps_to_invalid_params (t : ThoughtRecord) (publishOk logOk : Bool) :
    (save_thought t ScriptResult.duplicate publishOk logOk).1
        = Except.error (UIError.duplicateThought t.inst (contentPreview t.thought))
      ∧ ui_think_error_class (UIError.duplicateThought t.inst (contentPreview t.thought))
        = ErrClass.invalidParams
      ∧ ErrClass.invalidParams ≠ ErrClass.internalError :=
  ⟨rfl, rfl, by decide⟩

/-- C2 (code bug evaluation): the `ui_start` chunk loop slices the summary
at raw 2000-byte offsets with no character-boundary adjustment; on a summary
of 1999 ASCII bytes followed by a two-byte code point the first window ends
at byte 2000, which is not a UTF-8 character boundary, so the slice
`&summary_text[0..2000]` panics. -/
theorem C2_chunk_window_splits_code_point :
    (utf8Bytes badSummary).length = 2001
      ∧ ui_start_windows 2001 = [(0, 2000), (2000, 2001)]
      ∧ is_char_boundary (utf8Bytes badSummary) 2000 = false
      ∧ ui_start_chunking_safe badSummary = false := by
  have hw : ui_start_windows 2001 = [(0, 2000), (2000, 2001)] := rfl
  refine ⟨badSummary_length, hw, badSummary_boundary_2000, ?_⟩
  simp only [ui_start_chunking_safe, badSummary_length, hw, List.all_cons, List.all_nil,
    badSummary_boundary_2000, Bool.and_false, Bool.false_and, Bool.and_true]

/-- C3: from a fresh `StuckTracker`, five `next_approach` calls return
FirstPrinciples, Socratic, Systems, Ooda, RootCause in order while
`current_cycle` stays 0, leaving `attempted` equal to the full cycle order;
the sixth call returns FirstPrinciples again, bumps `current_cycle` to 1 and
re-seeds `attempted` with only the first mode. -/
theorem C3_stuck_cycle_rotation :
    (runNextApproaches 5 (StuckTracker.fresh "chain-1")).1 = CYCLE_ORDER
      ∧ (runNextApproaches 1 (StuckTracker.fresh "chain-1")).2.current_cycle = 0
      ∧ (runNextApproaches 2 (StuckTracker.fresh "chain-1")).2.current_cycle = 0
      ∧ (runNextApproaches 3 (StuckTracker.fresh "chain-1")).2.current_cycle = 0
      ∧ (runNextApproaches 4 (StuckTracker.fresh "chain-1")).2.current_cycle = 0
      ∧ (runNextApproaches 5 (StuckTracker.fresh "chain-1")).2.current_cycle = 0
      ∧ (runNextApproaches 5 (StuckTracker.fresh "chain-1")).2.attempted = CYCLE_ORDER
      ∧ ((runNextApproaches 5 (StuckTracker.fresh "chain-1")).2.next_approach).1
          = ThinkingMode.firstPrinciples
      ∧ ((runNextApproaches 5 (StuckTracker.fresh "chain-1")).2.next_approach).2.current_cycle = 1
      ∧ ((runNextApproaches 5 (StuckTracker.fresh "chain-1")).2.next_approach).2.attempted
          = [ThinkingMode.firstPrinciples] := by
  decide

/-- C4: for every delta ≥ 0 and user text, the retroactive feedback score
is 0.3 base when corrected else 0.9/0.7/0.5 by the 30s/120s thresholds,
plus 0.1 capped at 1 on a positive ack and minus 0.1 floored at 0 when
corrected; abandoned is 1 iff delta ≥ 600, continued is always 1, and
exactly these fields are persisted on the previous assistant thought's
voice:feedback hash. -/
theorem C4_feedback_scoring (delta : Int) (h : 0 ≤ delta) (text : String) :
    feedbackScoringSpec delta text := by
  have he := compute_feedback_scoring_eval delta text
  unfold feedbackScoringSpec
  refine ⟨?_, ?_, ?_, ?_, ?_, ?_, ?_, ?_, ?_, ?_, ?_, ?_⟩
  · intro hc ha; rw [he]; simp [hc, ha]
  · intro hc ha; rw [he]; simp [hc, ha]
  · intro hc ha h30; rw [he]; simp [hc, ha, h30]
  · intro hc ha h30 h120; rw [he]
    simp [hc, ha, h120, not_lt.mpr h30]
  · intro hc ha h120; rw [he]
    simp [hc, ha, not_lt.mpr h120, not_lt.mpr (by linarith : (30 : Int) ≤ delta)]
  · intro hc ha h30; rw [he]; simp [hc, ha, h30]
  · intro hc ha h30 h120; rw [he]
    simp [hc, ha, h120, not_lt.mpr h30]
  · intro hc ha h120; rw [he]
    simp [hc, ha, not_lt.mpr h120, not_lt.mpr (by linarith : (30 : Int) ≤ delta)]
  · rw [he]
    constructor
    · intro h600
      by_cases hd : (600 : Int) ≤ delta
      · exact hd
      · simp [hd] at h600
    · intro h600; simp [h600]
  · rw [he]
  · rw [he]
  · intro pid
    unfold feedback_hash_update
    rw [he]

/-- C4 witness: a concrete positive-ack text ten seconds after the previous
assistant thought. -/
theorem C4_feedback_scoring_witness :
    (0 : Int) ≤ 10 ∧ feedbackScoringSpec 10 "thanks" :=
  ⟨by norm_num, C4_feedback_scoring 10 (by norm_num) "thanks"⟩

/-- C5 counterexample: with semantic weight 0 — a configuration
`Config::validate` accepts — two candidates with identical text score and
identical recency but different semantic similarities tie on combined score,
and the stable sort keeps the lower-similarity candidate (pushed first)
ahead, so the claim's unconditional ranking fails. -/
theorem C5_zero_weight_counterexample :
    weightsValid cexWeights = true
      ∧ cexWeights.semantic = 0
      ∧ cexLow.semantic < cexHigh.semantic
      ∧ cexLow.text = cexHigh.text
      ∧ cexLow.recency = cexHigh.recency
      ∧ sortCands cexWeights [cexLow, cexHigh] = [cexLow, cexHigh]
      ∧ ¬ ranksBefore (sortCands cexWeights [cexLow, cexHigh]) cexHigh cexLow := by
  have hne : cexHigh ≠ cexLow := by
    intro h
    have hs := congrArg Cand.semantic h
    norm_num [cexHigh, cexLow, knnCand, semantic_of_score] at hs
  have hcomb : combinedScore cexWeights cexHigh ≤ combinedScore cexWeights cexLow := by
    norm_num [combinedScore, cexWeights, cexLow, cexHigh, knnCand, semantic_of_score]
  have hsort : sortCands cexWeights [cexLow, cexHigh] = [cexLow, cexHigh] := by
    simp [sortCands, List.insertionSort, List.orderedInsert, hcomb]
  refine ⟨?_, rfl, ?_, rfl, rfl, hsort, ?_⟩
  · norm_num [weightsValid, cexWeights]
  · norm_num [cexLow, cexHigh, knnCand, semantic_of_score]
  · rw [hsort]
    rintro ⟨-, -, hidx⟩
    rw [List.indexOf_cons_ne _ (Ne.symm hne), List.indexOf_cons_self,
      List.indexOf_cons_self] at hidx
    omega

/-- C5 (amended): provided the configured semantic weight is positive, a
candidate with identical text score and identical recency but smaller vector
distance d — semantic similarity 1/(1+d) — is ordered strictly before the
other in the final descending sort. -/
theorem C5_semantic_monotone_rank (w : HybridWeights) (hsem : 0 < w.semantic)
    (rec d1 d2 : ℚ) (hd1 : 0 ≤ d1) (hdd : d1 < d2) (s1 s2 : String) (l : List Cand)
    (h1 : knnCand s1 (some d1) rec ∈ l) (h2 : knnCand s2 (some d2) rec ∈ l) :
    semantic_of_score (some d1) = 1 / (1 + d1)
      ∧ semantic_of_score (some d2) < semantic_of_score (some d1)
      ∧ ranksBefore (sortCands w l) (knnCand s1 (some d1) rec) (knnCand s2 (some d2) rec) := by
  have hpos1 : (0 : ℚ) < 1 + d1 := by linarith
  have hinv : 1 / (1 + d2) < 1 / (1 + d1) :=
    one_div_lt_one_div_of_lt hpos1 (by linarith)
  refine ⟨rfl, hinv, ?_⟩
  apply ranksBefore_sortCands_of_lt w l _ _ h1 h2
  have hmul := mul_lt_mul_of_pos_left hinv hsem
  simp only [combinedScore, knnCand, semantic_of_score]
  linarith

/-- C5 witness: default-style positive weights, distances 0 and 1, equal
recency. -/
theorem C5_semantic_monotone_rank_witness :
    ranksBefore
      (sortCands { semantic := 6 / 10, text := 2 / 10, recency := 2 / 10 }
        [knnCand "b" (some 1) (1 / 2), knnCand "a" (some 0) (1 / 2)])
      (knnCand "a" (some 0) (1 / 2)) (knnCand "b" (some 1) (1 / 2)) :=
  (C5_semantic_monotone_rank { semantic := 6 / 10, text := 2 / 10, recency := 2 / 10 }
    (by norm_num) (1 / 2) 0 1 (by norm_num) (by norm_num) "a" "b"
    [knnCand "b" (some 1) (1 / 2), knnCand "a" (some 0) (1 / 2)]
    (List.mem_cons_of_mem _ (List.mem_cons_self _ _))
    (List.mem_cons_self _ _)).2.2

/-- C6: the vector-index ensure operation is idempotent — a successful info
probe returns created=false and creates nothing; from an absent index, any
run of n+1 sequential calls returns created=true exactly once; an "index
already exists" creation failure is swallowed as created=false; any other
creation failure propagates. -/
theorem C6_ensure_index_idempotent (n : Nat) (c : CreateOutcome) (m : String) :
    createdCount (runEnsureIndex (n + 1) false).1 = 1
      ∧ ensure_index_result true c = Except.ok false
      ∧ ensure_index_result false CreateOutcome.success = Except.ok true
      ∧ (isIndexExistsError m = true →
          ensure_index_result false (CreateOutcome.failure m) = Except.ok false)
      ∧ (isIndexExistsError m = false →
          ensure_index_result false (CreateOutcome.failure m) = Except.error m) := by
  refine ⟨?_, ?_, rfl, ?_, ?_⟩
  · have hstep : runEnsureIndex (n + 1) false
        = (Except.ok true :: (runEnsureIndex n true).1, (runEnsureIndex n true).2) := rfl
    rw [hstep, runEnsureIndex_true]
    simp [createdCount, isCreated, createdCount_replicate_okFalse n]
  · simp [ensure_index_result]
  · intro hm; simp [ensure_index_result, hm]
  · intro hm; simp [ensure_index_result, hm]

/-- C6 witness: three calls from an absent index create exactly once; the
already-exists failure is swallowed, an unknown-command failure propagates. -/
theorem C6_ensure_index_idempotent_witness :
    createdCount (runEnsureIndex 3 false).1 = 1
      ∧ ensure_index_result false (CreateOutcome.failure "Index already exists")
          = Except.ok false
      ∧ ensure_index_result false (CreateOutcome.failure "ERR unknown command")
          = Except.error "ERR unknown command" :=
  ⟨(C6_ensure_index_idempotent 2 CreateOutcome.success "x").1,
   (C6_ensure_index_idempotent 2 CreateOutcome.success "Index already exists").2.2.2.1
     (by decide),
   (C6_ensure_index_idempotent 2 CreateOutcome.success "ERR unknown command").2.2.2.2
     (by decide)⟩

/-- C7: a thought_created entry reaches the event stream only when the
atomic store script returned OK — never on DUPLICATE or on a failed script —
and a failed best-effort publish (or log) does not fail the committed
write. -/
theorem C7_event_append_only_on_commit (t : ThoughtRecord) (publishOk logOk : Bool)
    (m : String) :
    (save_thought t ScriptResult.ok publishOk logOk).1 = Except.ok ()
      ∧ (save_thought t ScriptResult.ok publishOk logOk).2
          = (if publishOk then [StreamEntry.publishEvent t.inst "thought_created" t] else [])
              ++ (if logOk then [StreamEntry.logEvent t.inst "thought_created" t.id] else [])
      ∧ (save_thought t ScriptResult.duplicate publishOk logOk).2 = []
      ∧ (save_thought t (ScriptResult.other m) publishOk logOk).2 = [] :=
  ⟨rfl, rfl, rfl, rfl⟩

/-- C8 counterexample: on a chain whose latest assistant thought T2 has
thought_number 4, a feedback call providing thought_number 1 stores T3 with
number `max(provided, 2) + 1 = 3`, not `max(T2's number, provided) + 1 = 5`
as claimed. -/
theorem C8_counterexample :
    (latestAssistant c8Chain).map (fun t => t.thought_number) = some 4
      ∧ c8Params.thought_number = 1
      ∧ ((ui_remember_feedback_t3 c8Params).toOption.map (fun r => r.thought_number)) = some 3
      ∧ (3 : Int) ≠ max 4 1 + 1 := by
  decide

/-- C8 (amended): the feedback action requires a chain_id and otherwise
fails with invalid_params; when present, the stored T3 thought's number is
`max(provided thought_number, 2) + 1` — the constant 2 standing for a
nominal T2 position, independent of T2's actual number — and its category is
ui_remember:feedback. -/
theorem C8_feedback_t3_shape (p q : UiRememberParams) (c : String)
    (hc : p.chain_id = some c) (hq : q.chain_id = none) :
    ui_remember_feedback_t3 p
        = Except.ok
            { thought_number := max p.thought_number 2 + 1,
              total_thoughts := max p.total_thoughts 3,
              chain_id := c,
              content := p.feedback.getD "",
              next_thought_needed := p.continue_next.getD false,
              category := some "ui_remember:feedback" }
      ∧ ui_remember_feedback_t3 q = Except.error ErrClass.invalidParams := by
  constructor
  · simp [ui_remember_feedback_t3, hc]
  · simp [ui_remember_feedback_t3, hq]

/-- C8 witness: the concrete feedback parameters with and without a
chain_id. -/
theorem C8_feedback_t3_shape_witness :
    ui_remember_feedback_t3 c8Params
        = Except.ok
            { thought_number := max c8Params.thought_number 2 + 1,
              total_thoughts := max c8Params.total_thoughts 3,
              chain_id := "c",
              content := c8Params.feedback.getD "",
              next_thought_needed := c8Params.continue_next.getD false,
              category := some "ui_remember:feedback" }
      ∧ ui_remember_feedback_t3 { c8Params with chain_id := none }
          = Except.error ErrClass.invalidParams :=
  C8_feedback_t3_shape c8Params { c8Params with chain_id := none } "c" rfl rfl

/-- C9: in the recall handler, mode "thought" with a stored None yields the
structured invalid_params not-found error, while mode "chain" with an empty
thought list succeeds with an empty result — empty results are not
errors. -/
theorem C9_recall_not_found_vs_empty_chain (id : String)
    (gc : Except String (List ThoughtRecord)) (gt : Except String (Option ThoughtRecord)) :
    recall_handler "thought" id (Except.ok none) gc
        = RecallOutcome.invalid ("Thought with ID " ++ id ++ " not found.")
      ∧ (recall_handler "thought" id (Except.ok none) gc).isError = true
      ∧ recall_handler "chain" id gt (Except.ok []) = RecallOutcome.chainResult []
      ∧ (recall_handler "chain" id gt (Except.ok [])).isError = false :=
  ⟨rfl, rfl, rfl, rfl⟩

/-- C10: a vector hit whose search reply lacks a parseable score field gets
score None from the extraction and semantic similarity exactly 0.5 — not 0,
the value of text-only hits — so with a positive semantic weight an unscored
vector hit strictly outranks a candidate identical except for semantic 0. -/
theorem C10_unscored_knn_outranks (w : HybridWeights) (hsem : 0 < w.semantic)
    (n : Int) (id s1 : String) (rec : ℚ) (l : List Cand) (other : Cand)
    (h1 : knnCand s1 none rec ∈ l) (h2 : other ∈ l)
    (hsem0 : other.semantic = 0) (htext : other.text = 0) (hrec : other.recency = rec) :
    extract_doc_ids_and_scores (RValue.arr [RValue.intVal n, RValue.bulk id]) = [(id, none)]
      ∧ extract_doc_ids_and_scores
          (RValue.arr [RValue.intVal n, RValue.bulk id,
            RValue.arr [RValue.bulk "score", RValue.bulk "not-a-number"]]) = [(id, none)]
      ∧ semantic_of_score none = 1 / 2
      ∧ (knnCand s1 none rec).semantic = 1 / 2
      ∧ (∀ s r, (textCand s r).semantic = 0)
      ∧ combinedScore w other < combinedScore w (knnCand s1 none rec)
      ∧ ranksBefore (sortCands w l) (knnCand s1 none rec) other := by
  have hcomb : combinedScore w other < combinedScore w (knnCand s1 none rec) := by
    have hhalf : (0 : ℚ) < w.semantic * (1 / 2) :=
      mul_pos hsem (by norm_num)
    simp only [combinedScore, knnCand, semantic_of_score, hsem0, htext, hrec]
    linarith
  refine ⟨rfl, rfl, rfl, rfl, fun s r => rfl, hcomb, ?_⟩
  exact ranksBefore_sortCands_of_lt w l _ _ h1 h2 hcomb

/-- C10 witness: default-style weights, an unscored vector hit against a
semantic-0 candidate with the same text score and recency. -/
theorem C10_unscored_knn_outranks_witness :
    ranksBefore
      (sortCands { semantic := 6 / 10, text := 2 / 10, recency := 2 / 10 }
        [{ content := "o", semantic := 0, text := 0, recency := 1 / 2 },
         knnCand "k" none (1 / 2)])
      (knnCand "k" none (1 / 2))
      { content := "o", semantic := 0, text := 0, recency := 1 / 2 } :=
  (C10_unscored_knn_outranks { semantic := 6 / 10, text := 2 / 10, recency := 2 / 10 }
    (by norm_num) 7 "doc" "k" (1 / 2)
    [{ content := "o", semantic := 0, text := 0, recency := 1 / 2 },
     knnCand "k" none (1 / 2)]
    { content := "o", semantic := 0, text := 0, recency := 1 / 2 }
    (List.mem_cons_of_mem _ (List.mem_cons_self _ _))
    (List.mem_cons_self _ _) rfl rfl rfl).2.2.2.2.2.2

end UnifiedIntelligence
